import Mathlib

/-!
Verification of the MikroTik auto-backup application: a shallow embedding of
`utils/backup.py`, `utils/scheduler.py`, `utils/gdrive.py` and the backup
routes of `app.py`, together with theorems about the backup transaction, the
cloud upload/retention step, the scheduler reconfiguration and the bounded
outcome log.

External effects (RouterOS API calls, FTP transfers, Google Drive calls,
filesystem operations) are modelled by an environment record holding the
response of each external operation; a Python exception raised by an
operation is an `Except.error` carrying the exception's string rendering.
-/

namespace AutoBackup

/-- `config.BACKUP_DIR`: directory that receives downloaded backup files.
(`config.py` builds it from `BASE_DIR`; only the fact that it is a fixed
path prefix matters here.) -/
def BACKUP_DIR : String := "backups"

/-- `os.path.join(dir, name)` for the simple two-component case used by the
code. -/
def pathJoin (dir name : String) : String := dir ++ "/" ++ name

/-- Splitting a character list at every occurrence of `c`
(the accumulator holds the current chunk reversed); mirrors Python's
`str.split(c)` including empty chunks. -/
def splitCharAux (c : Char) : List Char → List Char → List (List Char)
  | [], cur => [cur.reverse]
  | x :: xs, cur =>
      if x == c then cur.reverse :: splitCharAux c xs []
      else splitCharAux c xs (x :: cur)

/-- Python's `s.split(c)` for a single-character separator. -/
def pySplit (s : String) (c : Char) : List String :=
  (splitCharAux c s.data []).map String.mk

/-- `os.path.basename`: the part of the path after the final slash. -/
def basename (p : String) : String :=
  String.mk ((p.data.reverse.takeWhile (fun ch => ch != '/')).reverse)

/-- Boolean list-prefix test. -/
def listIsPrefix : List Char → List Char → Bool
  | [], _ => true
  | _ :: _, [] => false
  | a :: as, b :: bs => a == b && listIsPrefix as bs

/-- Boolean list-infix test. -/
def listIsInfix (needle : List Char) : List Char → Bool
  | [] => needle.isEmpty
  | b :: bs => listIsPrefix needle (b :: bs) || listIsInfix needle bs

/-- Python's substring test `needle in hay`. -/
def strContains (hay needle : String) : Bool := listIsInfix needle.data hay.data

/-- Boolean string-prefix test (`str.startswith`). -/
def strIsPrefix (p s : String) : Bool := listIsPrefix p.data s.data

/-- A router record as stored in the inventory (`routers.json`): `app.py`
always writes `id`, `name`, `ip`, `username`, `password` and the two ports,
but `create_backup` reads `id` and `name` with `dict.get`, so these two are
modelled as optional. Credentials and ports play no role in the modelled
control flow. -/
structure Router where
  id : Option String
  name : Option String
  ip : String
  deriving Repr, DecidableEq

/-- `router.get('name', router.get('ip'))` in `create_backup`. -/
def routerName (r : Router) : String := r.name.getD r.ip

/-- Metadata the Google Drive `files().create` call returns for a stored
file (`id`, `webViewLink`) together with the server-assigned creation time
used for retention ordering. The stored file's display name is the basename
of the uploaded local path (set by `GoogleDriveClient.upload_file`). -/
structure DriveMeta where
  id : String
  link : String
  created : Nat
  deriving Repr, DecidableEq

/-- A file in the cloud store (the Drive folder the app uploads into). -/
structure DriveFile where
  id : String
  name : String
  created : Nat
  deriving Repr, DecidableEq

/-- Responses of every external operation one device's backup attempt and
upload step can perform, in the order `create_backup` and the upload loops
issue them. `Except.error s` means the Python call raised an exception whose
string rendering is `s`; for `upload` it means `upload_file` returned a
failure tuple with message `s`. -/
structure Env where
  /-- `RouterOsApiPool(...)` / `get_api()` -/
  apiConnect : Except String Unit
  /-- `api.get_resource('/system/identity').get()[0]['name']` -/
  identityQuery : Except String String
  /-- `datetime.now().strftime("%Y%m%d-%H%M%S")` -/
  timestamp : String
  /-- `datetime.now().isoformat()` recorded in `BackupResult.timestamp` -/
  now : String
  /-- `os.makedirs(config.BACKUP_DIR, exist_ok=True)` -/
  makedirs : Except String Unit
  /-- `export` with `show-sensitive=yes` -/
  exportSensitive : Except String Unit
  /-- retried `export` without `show-sensitive` -/
  exportPlain : Except String Unit
  /-- `/system/backup` `save` -/
  snapshotSave : Except String Unit
  /-- `ftp.connect(router_ip, ftp_port, timeout=30)` -/
  ftpConnect : Except String Unit
  /-- `ftp.login(username, password)` -/
  ftpLogin : Except String Unit
  /-- `RETR <filename>.rsc` into the local `.rsc` file -/
  downloadRsc : Except String Unit
  /-- `RETR <filename>.backup` into the local `.backup` file -/
  downloadBackup : Except String Unit
  /-- `ftp.quit()` after the downloads -/
  ftpQuit : Except String Unit
  /-- the `/file` listing-and-remove loop (wrapped in a bare `except: pass`) -/
  remoteCleanup : Except String Unit
  /-- `gdrive_client.upload_file(local_file, folder_id)` per local path -/
  upload : String → Except String DriveMeta

/-- The structured result of one backup transaction
(`utils/backup.py`, class `BackupResult`). -/
structure BackupResult where
  success : Bool
  router_id : Option String
  router_name : String
  message : String
  local_files : List String
  timestamp : String
  deriving Repr, DecidableEq

/-- Identity resolution in `create_backup`: the self-reported identity when
the query succeeds, the configured name (falling back to the address)
when the query raises. -/
def resolvedIdentity (r : Router) (e : Env) : String :=
  match e.identityQuery with
  | .ok n => n
  | .error _ => routerName r

/-- The export step of `create_backup`: try `export` with
`show-sensitive=yes`; if it raises and the message contains
`unknown parameter` (case-insensitively), retry once without the option;
any other failure propagates. -/
def exportStep (e : Env) : Except String Unit :=
  match e.exportSensitive with
  | .ok _ => .ok ()
  | .error msg =>
      if strContains msg.toLower "unknown parameter" then e.exportPlain
      else .error msg

/-- The body of `create_backup`'s outer `try`. The first component is the
list of files actually downloaded to local storage during the run (in
download order); the second is the outcome: `Except.error s` when some
unguarded statement raised with message `s`, `Except.ok files` when control
reached the result evaluation after remote cleanup. -/
def create_backup_run (r : Router) (e : Env) : List String × Except String (List String) :=
  match e.apiConnect with
  | .error s => ([], .error s)
  | .ok _ =>
    let filename := resolvedIdentity r e ++ "-" ++ e.timestamp
    match e.makedirs with
    | .error s => ([], .error s)
    | .ok _ =>
      match exportStep e with
      | .error s => ([], .error s)
      | .ok _ =>
        match e.snapshotSave with
        | .error s => ([], .error s)
        | .ok _ =>
          match e.ftpConnect with
          | .error s => ([], .error s)
          | .ok _ =>
            match e.ftpLogin with
            | .error s => ([], .error s)
            | .ok _ =>
              let rscFiles :=
                match e.downloadRsc with
                | .ok _ => [pathJoin BACKUP_DIR (filename ++ ".rsc")]
                | .error _ => []
              let files := rscFiles ++
                (match e.downloadBackup with
                 | .ok _ => [pathJoin BACKUP_DIR (filename ++ ".backup")]
                 | .error _ => [])
              match e.ftpQuit with
              | .error s => (files, .error s)
              | .ok _ => (files, .ok files)

/-- Files written to local storage by the transaction's download phase. -/
def downloadedFiles (r : Router) (e : Env) : List String :=
  (create_backup_run r e).1

/-- `create_backup(router)` from `utils/backup.py`: runs the body and turns
every raised exception into a failure `BackupResult`; with zero downloaded
files returns the fixed failure message, otherwise a success result listing
the retrieved basenames. -/
def create_backup (r : Router) (e : Env) : BackupResult :=
  match (create_backup_run r e).2 with
  | .error s =>
      { success := false, router_id := r.id, router_name := routerName r
        message := "Backup failed: " ++ s, local_files := [], timestamp := e.now }
  | .ok files =>
      if files.isEmpty then
        { success := false, router_id := r.id, router_name := routerName r
          message := "Backup failed: Could not download any backup files"
          local_files := [], timestamp := e.now }
      else
        { success := true, router_id := r.id, router_name := routerName r
          message := "Backup created: " ++ String.intercalate ", " (files.map basename)
          local_files := files, timestamp := e.now }

/-- The dict recorded in `drive_files` for one successful upload
(`id`, `name`, `link`). -/
structure DriveInfo where
  id : String
  name : String
  link : String
  deriving Repr, DecidableEq

/-- Result of the per-file upload loop of `scheduled_backup_job` /
`backup_single` / `backup_all`: recorded upload dicts, recorded error
messages, the local filesystem afterwards, and the cloud store afterwards. -/
structure UploadStep where
  drive_files : List DriveInfo
  drive_errors : List String
  fs : List String
  store : List DriveFile
  deriving Repr, DecidableEq

/-- The per-file upload loop (`scheduler.py` lines 94-109, identical in
`app.py`): upload each local file; on success record the dict, append the
stored file to the cloud store, and — when `delete_local` is set and the
file exists — remove the local file; on failure record the error message and
continue with the next file. -/
def process_uploads (upload : String → Except String DriveMeta) (delete_local : Bool) :
    List String → List String → List DriveFile → UploadStep
  | [], fs, store => ⟨[], [], fs, store⟩
  | f :: rest, fs, store =>
      match upload f with
      | .ok meta =>
          let fs1 := if delete_local && fs.contains f then fs.filter (fun q => q != f) else fs
          let step := process_uploads upload delete_local rest fs1
            (store ++ [⟨meta.id, basename f, meta.created⟩])
          { step with drive_files := ⟨meta.id, basename f, meta.link⟩ :: step.drive_files }
      | .error e =>
          let step := process_uploads upload delete_local rest fs store
          { step with drive_errors := e :: step.drive_errors }

/-- The retention-key derivation used before pruning
(`'-'.join(filename.split('-')[:-1])` in `app.py` and `scheduler.py`). -/
def router_identity_of (filename : String) : String :=
  String.intercalate "-" ((pySplit filename '-').dropLast)

/-- Insertion into a list kept newest-first by creation time. -/
def insertByCreatedDesc (f : DriveFile) : List DriveFile → List DriveFile
  | [] => [f]
  | g :: gs => if g.created ≤ f.created then f :: g :: gs else g :: insertByCreatedDesc f gs

/-- Sort a file list newest-first by creation time. -/
def sortByCreatedDesc (l : List DriveFile) : List DriveFile :=
  l.foldr insertByCreatedDesc []

/-- Modelled from the spec: `GoogleDriveClient.delete_old_backups` is called
by `app.backup_single`, `app.backup_all` and
`scheduler.scheduled_backup_job` but its definition is absent from the
sources. Per spec sections 4.2 and 6, it lists the stored files whose name
has the given identity prefix, orders them by creation time newest-first,
and deletes every file beyond position `keep_latest`, scoped to that
identity (the store here models the contents of the destination folder). -/
def delete_old_backups (store : List DriveFile) (identity : String) (keep_latest : Nat) :
    List DriveFile :=
  let matching := store.filter (fun f => strIsPrefix identity f.name)
  let doomed := (sortByCreatedDesc matching).drop keep_latest
  store.filter (fun f => !(doomed.any (fun d => d.id == f.id)))

/-- The complete upload-and-prune step run after a successful transaction
(`scheduler.py` lines 91-126, `app.py` lines 305-340 and 378-407): the
upload loop, then — when at least one upload succeeded — derivation of the
retention key from the first local file's basename and, when that key is
nonempty, pruning of the cloud store with the given keep-count. -/
def upload_and_prune (upload : String → Except String DriveMeta) (delete_local : Bool)
    (keep_latest : Nat) (files : List String) (fs : List String) (store : List DriveFile) :
    UploadStep :=
  let step := process_uploads upload delete_local files fs store
  if step.drive_files.isEmpty then step
  else
    match files with
    | [] => step
    | f0 :: _ =>
        let ident := router_identity_of (basename f0)
        if ident == "" then step
        else { step with store := delete_old_backups step.store ident keep_latest }

/-- `save_backup_log` (`scheduler.py`): truncate to the last 100 entries
(`log[-100:]`) and persist. -/
def save_backup_log (log : List α) : List α := log.drop (log.length - 100)

/-- `add_log_entry` (`scheduler.py`): read the history, append, persist
truncated. -/
def add_log_entry (log : List α) (entry : α) : List α := save_backup_log (log ++ [entry])

/-- One log entry (`BackupResult.to_dict()` plus the keys the sweeps add). -/
structure LogEntry where
  success : Bool
  router_id : Option String
  router_name : String
  message : String
  local_files : List String
  timestamp : String
  triggered_by : String
  drive_files : Option (List DriveInfo)
  drive_errors : Option (List String)
  local_deleted : Option Bool
  deriving Repr, DecidableEq

/-- `result.to_dict()` followed by `log_entry['triggered_by'] = trig`. -/
def baseLogEntry (res : BackupResult) (trig : String) : LogEntry :=
  { success := res.success, router_id := res.router_id, router_name := res.router_name
    message := res.message, local_files := res.local_files, timestamp := res.timestamp
    triggered_by := trig, drive_files := none, drive_errors := none, local_deleted := none }

/-- Processing of one router inside a sweep: run the transaction, then — if
it succeeded with at least one local file and Drive is authorized — the
upload-and-prune step, recording `drive_files` / `drive_errors` /
`local_deleted` exactly when the code adds those keys. Downloaded files are
added to the local filesystem by the transaction's download phase. -/
def process_router (authorized delete_local : Bool) (keep_latest : Nat) (trig : String)
    (r : Router) (e : Env) (fs : List String) (store : List DriveFile) :
    LogEntry × List String × List DriveFile :=
  let result := create_backup r e
  let fs1 := fs ++ downloadedFiles r e
  let base := baseLogEntry result trig
  if result.success && !result.local_files.isEmpty && authorized then
    let step := upload_and_prune e.upload delete_local keep_latest result.local_files fs1 store
    let entry := { base with
      drive_files := if step.drive_files.isEmpty then none else some step.drive_files
      drive_errors := if step.drive_errors.isEmpty then none else some step.drive_errors
      local_deleted :=
        if !step.drive_files.isEmpty && delete_local then some true else none }
    (entry, step.fs, step.store)
  else (base, fs1, store)

/-- A sweep over the configured routers: one `process_router` per device,
sequentially, threading the local filesystem and the cloud store; returns
the produced log entries in device order. -/
def run_sweep (authorized delete_local : Bool) (keep_latest : Nat) (trig : String) :
    List (Router × Env) → List String → List DriveFile →
    List LogEntry × List String × List DriveFile
  | [], fs, store => ([], fs, store)
  | (r, e) :: rest, fs, store =>
      let out := process_router authorized delete_local keep_latest trig r e fs store
      let tail := run_sweep authorized delete_local keep_latest trig rest out.2.1 out.2.2
      (out.1 :: tail.1, tail.2)

/-- `scheduled_backup_job` (`scheduler.py`): the scheduled sweep with
`triggered_by='scheduler'` and `keep_latest=12`, appending each entry to the
persisted log. Returns the produced entries, the log, the filesystem and
the store afterwards. -/
def scheduled_backup_job (routers : List (Router × Env)) (authorized delete_local : Bool)
    (log : List LogEntry) (fs : List String) (store : List DriveFile) :
    List LogEntry × List LogEntry × List String × List DriveFile :=
  let out := run_sweep authorized delete_local 12 "scheduler" routers fs store
  (out.1, out.1.foldl add_log_entry log, out.2.1, out.2.2)

/-- `backup_all` (`app.py`): the manual sweep with
`triggered_by='manual_all'` and `keep_latest=2`. -/
def backup_all (routers : List (Router × Env)) (authorized delete_local : Bool)
    (log : List LogEntry) (fs : List String) (store : List DriveFile) :
    List LogEntry × List LogEntry × List String × List DriveFile :=
  let out := run_sweep authorized delete_local 2 "manual_all" routers fs store
  (out.1, out.1.foldl add_log_entry log, out.2.1, out.2.2)

/-- `backup_single` (`app.py`): one manual backup with
`triggered_by='manual'` and `keep_latest=2`. -/
def backup_single (r : Router) (e : Env) (authorized delete_local : Bool)
    (log : List LogEntry) (fs : List String) (store : List DriveFile) :
    LogEntry × List LogEntry × List String × List DriveFile :=
  let out := process_router authorized delete_local 2 "manual" r e fs store
  (out.1, add_log_entry log out.1, out.2.1, out.2.2)

/-- An environment in which every external operation succeeds; handy base
point for concrete runs. -/
def okEnv : Env where
  apiConnect := .ok ()
  identityQuery := .ok "R1"
  timestamp := "20240101-020000"
  now := "2024-01-01T02:00:10"
  makedirs := .ok ()
  exportSensitive := .ok ()
  exportPlain := .ok ()
  snapshotSave := .ok ()
  ftpConnect := .ok ()
  ftpLogin := .ok ()
  downloadRsc := .ok ()
  downloadBackup := .ok ()
  ftpQuit := .ok ()
  remoteCleanup := .ok ()
  upload := fun p => .ok { id := p, link := p, created := 0 }

/-- The router of the spec's walked-through scenario. -/
def sampleRouter : Router := { id := some "r1", name := some "R1", ip := "10.0.0.5" }

/-- The fixed job identifier (`scheduler.py`). -/
def JOB_ID : String := "backup_all_routers"

/-- A job installed in the APScheduler instance: an interval trigger with a
period in hours, or a cron trigger firing daily at `hour:minute`. -/
inductive JobSpec where
  | interval (hours : Nat)
  | cron (hour minute : Nat)
  deriving Repr, DecidableEq

/-- The scheduler's job table: its jobs, keyed by job id. -/
abbrev SchedulerState := List (String × JobSpec)

/-- `scheduler.get_job(id)`. -/
def get_job (st : SchedulerState) (id : String) : Option JobSpec :=
  (List.find? (fun p => p.1 == id) st).map (fun p => p.2)

/-- `scheduler.remove_job(id)`. -/
def remove_job (st : SchedulerState) (id : String) : SchedulerState :=
  List.filter (fun p => p.1 != id) st

/-- `scheduler.add_job(id=..., ...)`. -/
def add_job (st : SchedulerState) (id : String) (spec : JobSpec) : SchedulerState :=
  st ++ [(id, spec)]

/-- The persisted settings as far as `update_scheduler` reads them; each
field is optional because the code reads it with `settings.get(key,
default)`. -/
structure Settings where
  schedule_enabled : Option Bool
  schedule_type : Option String
  schedule_interval_hours : Option Nat
  schedule_cron_hour : Option Nat
  schedule_cron_minute : Option Nat
  deriving Repr, DecidableEq

/-- `update_scheduler` (`scheduler.py` lines 132-168): remove the job under
`JOB_ID` if present; stop if scheduling is disabled; otherwise install an
interval job or a daily cron job according to `schedule_type`. -/
def update_scheduler (s : Settings) (st : SchedulerState) : SchedulerState :=
  let st1 := if (get_job st JOB_ID).isSome then remove_job st JOB_ID else st
  if !(s.schedule_enabled.getD false) then st1
  else
    let ty := s.schedule_type.getD "interval"
    if ty == "interval" then
      add_job st1 JOB_ID (.interval (s.schedule_interval_hours.getD 24))
    else if ty == "cron" then
      add_job st1 JOB_ID (.cron (s.schedule_cron_hour.getD 2) (s.schedule_cron_minute.getD 0))
    else st1

/-- Number of jobs installed under a given id. -/
def countJobs (st : SchedulerState) (id : String) : Nat :=
  (List.filter (fun p => p.1 == id) st).length

/-- OAuth2 credentials as `GoogleDriveClient.init_drive_service` consults them:
validity, expiry, presence of a refresh token, and the outcome of a refresh
attempt (the refreshed credentials' validity, or the exception message). -/
structure Creds where
  valid : Bool
  expired : Bool
  has_refresh : Bool
  refreshResult : Except String Bool
  deriving Repr

/-- External world of the Google Drive client: the stored token (`none`
when `get_token()` finds nothing; `Except.error` when
`Credentials.from_authorized_user_info` raises), the `build('drive','v3')`
outcome, the local-file existence test and the `files().create` call. -/
structure GDEnv where
  token : Option (Except String Creds)
  build : Except String Unit
  fileExists : String → Bool
  create : String → Except String DriveMeta

/-- Mutable state of `GoogleDriveClient` (`_initialized` flag and whether a
service handle is held). -/
structure GDState where
  initialized : Bool
  service : Bool
  deriving Repr, DecidableEq

/-- `GoogleDriveClient.initialize` (renamed here): short-circuit when already initialized;
fail with the fixed not-authorized message when no token is stored; refresh
expired credentials (a raising refresh is caught by the surrounding
`except`); reject invalid credentials; build the service. Returns the
`(success, error)` pair and the client state afterwards. -/
def GoogleDriveClient.init_drive_service (env : GDEnv) (st : GDState) :
    (Bool × Option String) × GDState :=
  if st.initialized && st.service then ((true, none), st)
  else
    match env.token with
    | none => ((false, some "Not authorized. Please authorize Google Drive access first."), st)
    | some (.error e) => ((false, some ("Failed to initialize Google Drive: " ++ e)), st)
    | some (.ok creds) =>
        let refreshed : Except String Bool :=
          if creds.expired && creds.has_refresh then creds.refreshResult else .ok creds.valid
        match refreshed with
        | .error e => ((false, some ("Failed to initialize Google Drive: " ++ e)), st)
        | .ok valid =>
            if !valid then
              ((false, some "Invalid credentials. Please re-authorize Google Drive access."), st)
            else
              match env.build with
              | .error e => ((false, some ("Failed to initialize Google Drive: " ++ e)), st)
              | .ok _ => ((true, none), { initialized := true, service := true })

/-- The second component of `upload_file`'s returned pair: an error message
or the uploaded file's dict. -/
inductive UploadOut where
  | err (s : String)
  | ok (f : DriveInfo)
  deriving Repr, DecidableEq

/-- `GoogleDriveClient.upload_file(local_path, folder_id)`: initialize the
service, then check that the local file exists, then create the remote file
(named by the local basename) in the destination folder, whose contents the
`store` argument models. Returns the `(success, result)` pair, the client
state and the store afterwards. -/
def GoogleDriveClient.upload_file (env : GDEnv) (st : GDState) (store : List DriveFile)
    (local_path : String) : (Bool × UploadOut) × GDState × List DriveFile :=
  let init := GoogleDriveClient.init_drive_service env st
  if !init.1.1 then ((false, .err (init.1.2.getD "")), init.2, store)
  else if !(env.fileExists local_path) then
    ((false, .err ("File not found: " ++ local_path)), init.2, store)
  else
    match env.create local_path with
    | .ok meta =>
        ((true, .ok ⟨meta.id, basename local_path, meta.link⟩), init.2,
          store ++ [⟨meta.id, basename local_path, meta.created⟩])
    | .error e => ((false, .err ("Upload failed: " ++ e)), init.2, store)

/-- Pre-existing cloud store for the retention scenario: three `R1-` backups
created on 2024-01-01. -/
def c1PreStore : List DriveFile :=
  [⟨"f1", "R1-20240101-010000.rsc", 1⟩,
   ⟨"f2", "R1-20240101-010000.backup", 2⟩,
   ⟨"f3", "R1-20240101-020000.rsc", 3⟩]

/-- Upload responses for the retention scenario: every upload succeeds, with
creation times after the pre-existing files. -/
def c1Upload : String → Except String DriveMeta :=
  fun p => Except.ok ⟨p, p, if strContains p ".backup" then 5 else 4⟩

/-- Authorized-but-empty-disk environment for the `upload_file` witness. -/
def c10AuthEnv : GDEnv :=
  { token := some (Except.ok ⟨true, false, false, Except.ok true⟩)
    build := Except.ok ()
    fileExists := fun _ => false
    create := fun _ => Except.error "unreachable" }

/-- Unauthorized environment (no stored token) for the C10 counterexample. -/
def c10NoTokenEnv : GDEnv :=
  { token := none
    build := Except.ok ()
    fileExists := fun _ => false
    create := fun _ => Except.error "unreachable" }

/-! ### Helper lemmas -/

theorem create_backup_router_id (r : Router) (e : Env) :
    (create_backup r e).router_id = r.id := by
  unfold create_backup
  rcases (create_backup_run r e).2 with s | files
  · rfl
  · by_cases h : files.isEmpty <;> simp [h]

theorem create_backup_router_name (r : Router) (e : Env) :
    (create_backup r e).router_name = routerName r := by
  unfold create_backup
  rcases (create_backup_run r e).2 with s | files
  · rfl
  · by_cases h : files.isEmpty <;> simp [h]

theorem save_save (x y : List α) :
    save_backup_log (save_backup_log x ++ y) = save_backup_log (x ++ y) := by
  unfold save_backup_log
  rcases le_or_lt x.length 100 with h | h
  · have h0 : x.length - 100 = 0 := by omega
    simp [h0]
  · rw [List.drop_append_eq_append_drop, List.drop_append_eq_append_drop,
      List.drop_drop, List.length_append, List.length_append, List.length_drop]
    congr 2 <;> omega

theorem foldl_add_log_entry (es : List α) (init : List α) (h : es ≠ []) :
    List.foldl add_log_entry init es = save_backup_log (init ++ es) := by
  induction es generalizing init with
  | nil => exact absurd rfl h
  | cons e rest ih =>
      cases rest with
      | nil => simp [add_log_entry]
      | cons e2 r2 =>
          rw [List.foldl_cons, ih _ (by simp), add_log_entry, save_save]
          congr 1
          simp

theorem cleaned_no_job (st : SchedulerState) :
    List.filter (fun p => p.1 == JOB_ID)
      (if (get_job st JOB_ID).isSome then remove_job st JOB_ID else st) = [] := by
  cases h : (get_job st JOB_ID).isSome
  · simp only [h, Bool.false_eq_true, if_false]
    apply List.filter_eq_nil_iff.mpr
    intro a ha
    have hnone : get_job st JOB_ID = none := Option.not_isSome_iff_eq_none.mp (by simp [h])
    unfold get_job at hnone
    rw [Option.map_eq_none'] at hnone
    simpa using List.find?_eq_none.mp hnone a ha
  · simp only [h, if_true]
    unfold remove_job
    rw [List.filter_filter]
    apply List.filter_eq_nil_iff.mpr
    intro a _
    cases hb : (a.1 == JOB_ID) <;> simp [hb, bne]

theorem countJobs_of_clean (st1 : SchedulerState)
    (h : List.filter (fun p => p.1 == JOB_ID) st1 = []) : countJobs st1 JOB_ID = 0 := by
  unfold countJobs
  rw [h]
  rfl

theorem countJobs_add_of_clean (st1 : SchedulerState)
    (h : List.filter (fun p => p.1 == JOB_ID) st1 = []) (spec : JobSpec) :
    countJobs (add_job st1 JOB_ID spec) JOB_ID = 1 := by
  unfold countJobs add_job
  rw [List.filter_append, h, List.nil_append]
  simp

theorem find_of_clean (st1 : SchedulerState)
    (h : List.filter (fun p => p.1 == JOB_ID) st1 = []) :
    List.find? (fun p => p.1 == JOB_ID) st1 = none :=
  List.find?_eq_none.mpr (fun x hx => by
    have := List.filter_eq_nil_iff.mp h x hx
    simpa using this)

theorem get_job_of_clean (st1 : SchedulerState)
    (h : List.filter (fun p => p.1 == JOB_ID) st1 = []) : get_job st1 JOB_ID = none := by
  unfold get_job
  rw [find_of_clean st1 h]
  rfl

theorem get_job_add_of_clean (st1 : SchedulerState)
    (h : List.filter (fun p => p.1 == JOB_ID) st1 = []) (spec : JobSpec) :
    get_job (add_job st1 JOB_ID spec) JOB_ID = some spec := by
  unfold get_job add_job
  rw [List.find?_append, find_of_clean st1 h]
  simp

theorem update_scheduler_count (s : Settings) (st : SchedulerState) :
    countJobs (update_scheduler s st) JOB_ID =
      (if s.schedule_enabled.getD false &&
          ((s.schedule_type.getD "interval" == "interval") ||
           (s.schedule_type.getD "interval" == "cron")) then 1 else 0) := by
  unfold update_scheduler
  have hclean := cleaned_no_job st
  cases he : s.schedule_enabled.getD false
  · simp only [he, Bool.not_false, if_true, Bool.false_and, Bool.false_eq_true, if_false]
    exact countJobs_of_clean _ hclean
  · simp only [he, Bool.not_true, Bool.false_eq_true, if_false, Bool.true_and]
    cases h1 : (s.schedule_type.getD "interval" == "interval")
    · cases h2 : (s.schedule_type.getD "interval" == "cron")
      · simp only [h1, h2, Bool.false_eq_true, if_false, Bool.or_self]
        exact countJobs_of_clean _ hclean
      · simp only [h1, h2, Bool.false_eq_true, if_false, if_true, Bool.false_or]
        exact countJobs_add_of_clean _ hclean _
    · simp only [h1, if_true, Bool.true_or]
      exact countJobs_add_of_clean _ hclean _

theorem update_scheduler_get (s : Settings) (st : SchedulerState) :
    get_job (update_scheduler s st) JOB_ID =
      (if s.schedule_enabled.getD false then
        (if s.schedule_type.getD "interval" == "interval" then
          some (JobSpec.interval (s.schedule_interval_hours.getD 24))
        else if s.schedule_type.getD "interval" == "cron" then
          some (JobSpec.cron (s.schedule_cron_hour.getD 2) (s.schedule_cron_minute.getD 0))
        else none)
      else none) := by
  unfold update_scheduler
  have hclean := cleaned_no_job st
  cases he : s.schedule_enabled.getD false
  · simp only [he, Bool.not_false, if_true, Bool.false_eq_true, if_false]
    exact get_job_of_clean _ hclean
  · simp only [he, Bool.not_true, Bool.false_eq_true, if_false, if_true]
    cases h1 : (s.schedule_type.getD "interval" == "interval")
    · cases h2 : (s.schedule_type.getD "interval" == "cron")
      · simp only [h1, h2, Bool.false_eq_true, if_false]
        exact get_job_of_clean _ hclean
      · simp only [h1, h2, Bool.false_eq_true, if_false, if_true]
        exact get_job_add_of_clean _ hclean _
    · simp only [h1, if_true]
      exact get_job_add_of_clean _ hclean _

/-! ### Claim theorems -/

theorem run_ok_fst (r : Router) (e : Env) (fs : List String)
    (h : (create_backup_run r e).2 = Except.ok fs) : (create_backup_run r e).1 = fs := by
  unfold create_backup_run at *
  repeat' split at h
  all_goals simp_all

/-- C4 (amended): a transaction's outcome has `success = true` exactly when
at least one artifact was downloaded AND the run completed (in particular
the transfer-session close did not raise); when the run completed, the
message is the fixed failure text for zero downloads and otherwise lists the
retrieved basenames. The separate counterexample shows the unamended
biconditional fails when `ftp.quit()` raises after successful downloads. -/
theorem c4_success_iff_downloaded (r : Router) (e : Env) :
    ((create_backup r e).success = true ↔
      downloadedFiles r e ≠ [] ∧ (create_backup_run r e).2.isOk = true) ∧
    ((create_backup_run r e).2.isOk = true →
      (create_backup r e).message =
        (if downloadedFiles r e = [] then
          "Backup failed: Could not download any backup files"
        else "Backup created: " ++
          String.intercalate ", " ((downloadedFiles r e).map basename))) := by
  unfold create_backup downloadedFiles
  cases hrun : (create_backup_run r e).2 with
  | error s => simp [hrun, Except.isOk, Except.toBool]
  | ok fs =>
      have hfst := run_ok_fst r e fs hrun
      by_cases hfs : fs.isEmpty
      · have hnil : fs = [] := by simpa using hfs
        simp [hrun, hfs, hfst, hnil, Except.isOk, Except.toBool]
      · have hne : fs ≠ [] := by simpa using hfs
        simp [hrun, hfs, hfst, hne, Except.isOk, Except.toBool]

/-- Witness for `c4_success_iff_downloaded`: the all-succeeding run of the
spec scenario completes and reports both retrieved files. -/
theorem c4_success_iff_downloaded_witness :
    ((create_backup_run sampleRouter okEnv).2.isOk = true) ∧
    (create_backup sampleRouter okEnv).message =
      (if downloadedFiles sampleRouter okEnv = [] then
        "Backup failed: Could not download any backup files"
      else "Backup created: " ++
        String.intercalate ", " ((downloadedFiles sampleRouter okEnv).map basename)) :=
  ⟨by decide, (c4_success_iff_downloaded sampleRouter okEnv).2 (by decide)⟩

/-- Counterexample to C4 as stated: when `ftp.quit()` raises after both
downloads succeeded, the transaction downloaded two artifacts yet the
outcome has `success = false` and a non-fixed message. -/
theorem c4_success_iff_cex :
    downloadedFiles sampleRouter
        { okEnv with ftpQuit := Except.error "421 connection closed" } ≠ [] ∧
    (create_backup sampleRouter
        { okEnv with ftpQuit := Except.error "421 connection closed" }).success = false ∧
    (create_backup sampleRouter
        { okEnv with ftpQuit := Except.error "421 connection closed" }).message =
      "Backup failed: 421 connection closed" := by
  refine ⟨?_, ?_, ?_⟩ <;> decide

/-- C5: `create_backup` is a total function into `BackupResult` (the outer
`try/except` converts every raised failure into outcome fields): the outcome
always carries the target's id and name, and whenever the body raises with
message `s` the outcome is a failure carrying `Backup failed: s` and no
local files. -/
theorem c5_no_raise_outcome (r : Router) (e : Env) :
    (create_backup r e).router_id = r.id ∧
    (create_backup r e).router_name = routerName r ∧
    (∀ s, (create_backup_run r e).2 = Except.error s →
      (create_backup r e).success = false ∧
      (create_backup r e).message = "Backup failed: " ++ s ∧
      (create_backup r e).local_files = []) := by
  refine ⟨create_backup_router_id r e, create_backup_router_name r e, ?_⟩
  intro s hs
  unfold create_backup
  simp [hs]

/-- Witness for `c5_no_raise_outcome`: a run whose API connect raises. -/
theorem c5_no_raise_outcome_witness :
    ((create_backup_run sampleRouter
        { okEnv with apiConnect := Except.error "connection timed out" }).2 =
      Except.error "connection timed out") ∧
    ((create_backup sampleRouter
        { okEnv with apiConnect := Except.error "connection timed out" }).success = false ∧
     (create_backup sampleRouter
        { okEnv with apiConnect := Except.error "connection timed out" }).message =
       "Backup failed: connection timed out" ∧
     (create_backup sampleRouter
        { okEnv with apiConnect := Except.error "connection timed out" }).local_files = []) :=
  ⟨by rfl,
    (c5_no_raise_outcome sampleRouter
      { okEnv with apiConnect := Except.error "connection timed out" }).2.2
      "connection timed out" (by rfl)⟩

theorem upload_and_prune_fs (u : String → Except String DriveMeta) (dl : Bool) (k : Nat)
    (files fs : List String) (store : List DriveFile) :
    (upload_and_prune u dl k files fs store).fs = (process_uploads u dl files fs store).fs := by
  unfold upload_and_prune
  dsimp only
  repeat' split
  all_goals rfl

theorem process_uploads_fail_mem (u : String → Except String DriveMeta) (dl : Bool)
    (p : String) (hp : (u p).isOk = false) :
    ∀ (files fs : List String) (store : List DriveFile),
      (p ∈ (process_uploads u dl files fs store).fs ↔ p ∈ fs) := by
  intro files
  induction files with
  | nil => intro fs store; simp [process_uploads]
  | cons f rest ih =>
      intro fs store
      unfold process_uploads
      cases hf : u f with
      | ok meta =>
          have hfp : f ≠ p := by
            intro he
            rw [he] at hf
            rw [hf] at hp
            simp [Except.isOk, Except.toBool] at hp
          dsimp only
          rw [ih]
          split
          · constructor
            · exact fun hmem => (List.mem_filter.mp hmem).1
            · exact fun hmem =>
                List.mem_filter.mpr ⟨hmem, by simpa using Ne.symm hfp⟩
          · exact Iff.rfl
      | error msg =>
          dsimp only
          exact ih fs store

theorem process_uploads_removed (u : String → Except String DriveMeta) (dl : Bool) :
    ∀ (files fs : List String) (store : List DriveFile) (p : String),
      p ∈ fs → p ∉ (process_uploads u dl files fs store).fs →
      (u p).isOk = true ∧ dl = true := by
  intro files
  induction files with
  | nil =>
      intro fs store p hin hout
      exact absurd hin (by simpa [process_uploads] using hout)
  | cons f rest ih =>
      intro fs store p hin hout
      unfold process_uploads at hout
      cases hf : u f with
      | ok meta =>
          rw [hf] at hout
          dsimp only at hout
          split at hout
          · rename_i hcond
            by_cases hmem : p ∈ fs.filter (fun q => q != f)
            · exact ih _ _ p hmem hout
            · have hpf : p = f := by
                by_contra hne
                exact hmem (List.mem_filter.mpr ⟨hin, by simpa using hne⟩)
              subst hpf
              refine ⟨by rw [hf]; rfl, ?_⟩
              have := hcond
              simp only [Bool.and_eq_true] at this
              exact this.1
          · exact ih _ _ p hin hout
      | error msg =>
          rw [hf] at hout
          dsimp only at hout
          exact ih _ _ p hin hout

theorem process_router_entry (a dl : Bool) (k : Nat) (trig : String) (r : Router) (e : Env)
    (fs : List String) (store : List DriveFile) :
    ((process_router a dl k trig r e fs store).1.router_id = r.id) ∧
    ((process_router a dl k trig r e fs store).1.triggered_by = trig) ∧
    ((process_router a dl k trig r e fs store).1.success = (create_backup r e).success) ∧
    ((process_router a dl k trig r e fs store).1.message = (create_backup r e).message) := by
  unfold process_router
  dsimp only
  split <;>
    simp [baseLogEntry, create_backup_router_id r e]

theorem run_sweep_entries (a dl : Bool) (k : Nat) (trig : String) :
    ∀ (routers : List (Router × Env)) (fs : List String) (store : List DriveFile),
      ((run_sweep a dl k trig routers fs store).1.map (fun en => en.router_id) =
        routers.map (fun q => q.1.id)) ∧
      ((run_sweep a dl k trig routers fs store).1.map (fun en => en.triggered_by) =
        routers.map (fun _ => trig)) ∧
      ((run_sweep a dl k trig routers fs store).1.map (fun en => (en.success, en.message)) =
        routers.map (fun q =>
          ((create_backup q.1 q.2).success, (create_backup q.1 q.2).message))) := by
  intro routers
  induction routers with
  | nil => intro fs store; simp [run_sweep]
  | cons q rest ih =>
      intro fs store
      obtain ⟨r, e⟩ := q
      unfold run_sweep
      dsimp only
      obtain ⟨h1, h2, h3, h4⟩ := process_router_entry a dl k trig r e fs store
      obtain ⟨ih1, ih2, ih3⟩ := ih (process_router a dl k trig r e fs store).2.1
        (process_router a dl k trig r e fs store).2.2
      simp [h1, h2, h3, h4, ih1, ih2, ih3]

/-- C3: both sweeps (the scheduled job with `triggered_by='scheduler'` and
the manual `backup_all` with `triggered_by='manual_all'`) are total and
fault-isolating: whatever each device's transaction and uploads return —
failures included — the sweep produces exactly one log entry per configured
device, in order, carrying that device's id, the trigger tag and that
device's own outcome fields. -/
theorem c3_sweep_isolation (routers : List (Router × Env)) (authorized delete_local : Bool)
    (log : List LogEntry) (fs : List String) (store : List DriveFile) :
    (((scheduled_backup_job routers authorized delete_local log fs store).1.map
        (fun en => en.router_id) = routers.map (fun q => q.1.id)) ∧
     ((scheduled_backup_job routers authorized delete_local log fs store).1.map
        (fun en => en.triggered_by) = routers.map (fun _ => "scheduler")) ∧
     ((scheduled_backup_job routers authorized delete_local log fs store).1.map
        (fun en => (en.success, en.message)) = routers.map (fun q =>
          ((create_backup q.1 q.2).success, (create_backup q.1 q.2).message)))) ∧
    (((backup_all routers authorized delete_local log fs store).1.map
        (fun en => en.router_id) = routers.map (fun q => q.1.id)) ∧
     ((backup_all routers authorized delete_local log fs store).1.map
        (fun en => en.triggered_by) = routers.map (fun _ => "manual_all")) ∧
     ((backup_all routers authorized delete_local log fs store).1.map
        (fun en => (en.success, en.message)) = routers.map (fun q =>
          ((create_backup q.1 q.2).success, (create_backup q.1 q.2).message)))) := by
  constructor
  · exact run_sweep_entries authorized delete_local 12 "scheduler" routers fs store
  · exact run_sweep_entries authorized delete_local 2 "manual_all" routers fs store

/-- C7: in the upload-and-prune step, a local file is removed only when its
upload succeeded and delete-local is enabled; in particular every file whose
upload fails is still present in the local filesystem afterwards. -/
theorem c7_local_deletion (u : String → Except String DriveMeta) (dl : Bool) (k : Nat)
    (files fs : List String) (store : List DriveFile) (p : String) :
    ((u p).isOk = false →
      (p ∈ (upload_and_prune u dl k files fs store).fs ↔ p ∈ fs)) ∧
    (p ∈ fs → p ∉ (upload_and_prune u dl k files fs store).fs →
      (u p).isOk = true ∧ dl = true) := by
  rw [upload_and_prune_fs]
  exact ⟨fun hp => process_uploads_fail_mem u dl p hp files fs store,
    fun h1 h2 => process_uploads_removed u dl files fs store p h1 h2⟩

/-- Witness for `c7_local_deletion`: a failing upload with delete-local
enabled leaves the file on disk. -/
theorem c7_local_deletion_witness :
    (((fun _ => Except.error "Upload failed: quota exceeded" :
        String → Except String DriveMeta) "backups/R1-20240101-020000.rsc").isOk = false) ∧
    "backups/R1-20240101-020000.rsc" ∈
      (upload_and_prune (fun _ => Except.error "Upload failed: quota exceeded") true 2
        ["backups/R1-20240101-020000.rsc"] ["backups/R1-20240101-020000.rsc"] []).fs :=
  ⟨by rfl,
    ((c7_local_deletion (fun _ => Except.error "Upload failed: quota exceeded") true 2
        ["backups/R1-20240101-020000.rsc"] ["backups/R1-20240101-020000.rsc"] []
        "backups/R1-20240101-020000.rsc").1 (by rfl)).mpr (by simp)⟩

/-- C9: `update_scheduler` first removes any job under the fixed id; with
scheduling disabled it ends with no job under that id; with scheduling
enabled it installs exactly one job — an interval job for type `interval`, a
daily cron job for type `cron` (and none for an unknown type); consequently
any two consecutive reconfigurations leave exactly one job under the fixed
id whenever the second one enables a recognized schedule type. -/
theorem c9_scheduler_replace (s : Settings) (st : SchedulerState) :
    (get_job (update_scheduler s st) JOB_ID =
      (if s.schedule_enabled.getD false then
        (if s.schedule_type.getD "interval" == "interval" then
          some (JobSpec.interval (s.schedule_interval_hours.getD 24))
        else if s.schedule_type.getD "interval" == "cron" then
          some (JobSpec.cron (s.schedule_cron_hour.getD 2) (s.schedule_cron_minute.getD 0))
        else none)
      else none)) ∧
    (countJobs (update_scheduler s st) JOB_ID =
      (if s.schedule_enabled.getD false &&
          ((s.schedule_type.getD "interval" == "interval") ||
           (s.schedule_type.getD "interval" == "cron")) then 1 else 0)) ∧
    (∀ s2 : Settings, countJobs (update_scheduler s2 (update_scheduler s st)) JOB_ID =
      (if s2.schedule_enabled.getD false &&
          ((s2.schedule_type.getD "interval" == "interval") ||
           (s2.schedule_type.getD "interval" == "cron")) then 1 else 0)) :=
  ⟨update_scheduler_get s st, update_scheduler_count s st,
    fun s2 => update_scheduler_count s2 (update_scheduler s st)⟩

/-- C2: the retention key is derived from the first uploaded file's name
`<identity>-<YYYYMMDD-HHMMSS>.<ext>` by dropping only the final
`-`-delimited segment; because the timestamp itself contains a `-`, the
derived key is `<identity>-<YYYYMMDD>`, not the device identity — contrary
to the claim (and to the code's own comment "Remove timestamp and extension
to get identity"). -/
theorem c2_retention_key_bug :
    router_identity_of (basename "backups/R1-20240101-020000.rsc") = "R1-20240101" ∧
    router_identity_of (basename "backups/R1-20240101-020000.rsc") ≠ "R1" := by
  constructor <;> decide

/-- C6 (amended): the identity used for the filename stem is the device's
self-reported identity when the query succeeds and the target's configured
name when the query fails, and every file the transaction downloads is
named from that identity and the timestamp; the identity can be empty
(nonemptiness is not enforced), which the separate counterexample shows. -/
theorem c6_identity_resolution (r : Router) (e : Env) :
    (∀ n, e.identityQuery = Except.ok n → resolvedIdentity r e = n) ∧
    (∀ s, e.identityQuery = Except.error s → resolvedIdentity r e = routerName r) ∧
    (∀ p, p ∈ downloadedFiles r e →
      p = pathJoin BACKUP_DIR (resolvedIdentity r e ++ "-" ++ e.timestamp ++ ".rsc") ∨
      p = pathJoin BACKUP_DIR (resolvedIdentity r e ++ "-" ++ e.timestamp ++ ".backup")) := by
  refine ⟨?_, ?_, ?_⟩
  · intro n h; simp [resolvedIdentity, h]
  · intro s h; simp [resolvedIdentity, h]
  · intro p hp
    unfold downloadedFiles create_backup_run at hp
    repeat' split at hp
    all_goals simp_all

/-- Witness for `c6_identity_resolution` at the all-succeeding run. -/
theorem c6_identity_resolution_witness :
    resolvedIdentity sampleRouter okEnv = "R1" ∧
    (pathJoin BACKUP_DIR "R1-20240101-020000.rsc" ∈ downloadedFiles sampleRouter okEnv ∧
      (pathJoin BACKUP_DIR "R1-20240101-020000.rsc" =
          pathJoin BACKUP_DIR (resolvedIdentity sampleRouter okEnv ++ "-" ++
            okEnv.timestamp ++ ".rsc") ∨
        pathJoin BACKUP_DIR "R1-20240101-020000.rsc" =
          pathJoin BACKUP_DIR (resolvedIdentity sampleRouter okEnv ++ "-" ++
            okEnv.timestamp ++ ".backup"))) :=
  ⟨(c6_identity_resolution sampleRouter okEnv).1 "R1" rfl,
    by decide,
    (c6_identity_resolution sampleRouter okEnv).2.2 _ (by decide)⟩

/-- Counterexample to C6 as stated: a device that reports an empty identity
makes the resolved identity empty, and the downloaded artifacts are then
named `-<timestamp>.<ext>`. -/
theorem c6_empty_identity_cex :
    resolvedIdentity sampleRouter { okEnv with identityQuery := Except.ok "" } = "" ∧
    (create_backup sampleRouter { okEnv with identityQuery := Except.ok "" }).message =
      "Backup created: -20240101-020000.rsc, -20240101-020000.backup" := by
  constructor <;> decide

/-- C8: appending more than 100 outcomes through `add_log_entry` leaves
exactly the 100 most recent in their original (oldest-first) order. -/
theorem c8_log_bounding (init entries : List α) (h : 100 < entries.length) :
    List.foldl add_log_entry init entries = entries.drop (entries.length - 100) := by
  have hne : entries ≠ [] := by
    intro he
    rw [he] at h
    simp at h
  rw [foldl_add_log_entry _ _ hne]
  unfold save_backup_log
  rw [List.drop_append_eq_append_drop, List.length_append,
    List.drop_eq_nil_of_le (by omega), List.nil_append]
  congr 1
  omega

/-- Witness for `c8_log_bounding`: 101 appends onto an empty history. -/
theorem c8_log_bounding_witness :
    100 < (List.range 101).length ∧
    List.foldl add_log_entry ([] : List Nat) (List.range 101) =
      (List.range 101).drop ((List.range 101).length - 100) :=
  ⟨by simp, c8_log_bounding [] (List.range 101) (by simp)⟩

/-- C1 (code bug): a manual upload-and-prune run (`keep_latest = 2`) of the
two fresh `R1-20240102-...` artifacts against a store holding three older
`R1-20240101-...` files succeeds for both uploads, yet afterwards the store
still holds 5 files with the `R1-` identity prefix — the derived retention
key `R1-20240102` only covers same-day names, so the claimed bound
(at most K files prefixed `I-`) fails. -/
theorem c1_retention_bug :
    ((upload_and_prune c1Upload false 2
        [pathJoin BACKUP_DIR "R1-20240102-020000.rsc",
         pathJoin BACKUP_DIR "R1-20240102-020000.backup"]
        [] c1PreStore).drive_files.length = 2) ∧
    (((upload_and_prune c1Upload false 2
        [pathJoin BACKUP_DIR "R1-20240102-020000.rsc",
         pathJoin BACKUP_DIR "R1-20240102-020000.backup"]
        [] c1PreStore).store.filter (fun f => strIsPrefix "R1-" f.name)).length = 5) ∧
    ¬(((upload_and_prune c1Upload false 2
        [pathJoin BACKUP_DIR "R1-20240102-020000.rsc",
         pathJoin BACKUP_DIR "R1-20240102-020000.backup"]
        [] c1PreStore).store.filter (fun f => strIsPrefix "R1-" f.name)).length ≤ 2) := by
  refine ⟨?_, ?_, ?_⟩ <;> decide

/-- C10 (amended): whenever the local path does not exist, `upload_file`
returns failure and leaves the cloud store untouched; provided the Drive
service initializes successfully, the failure message is exactly
`File not found: <local_path>`. The separate counterexample shows that with
no stored token the message is the initialization error instead. -/
theorem c10_missing_file (env : GDEnv) (st : GDState) (store : List DriveFile) (p : String)
    (h : env.fileExists p = false) :
    ((GoogleDriveClient.upload_file env st store p).1.1 = false) ∧
    ((GoogleDriveClient.upload_file env st store p).2.2 = store) ∧
    ((GoogleDriveClient.init_drive_service env st).1.1 = true →
      (GoogleDriveClient.upload_file env st store p).1.2 =
        UploadOut.err ("File not found: " ++ p)) := by
  unfold GoogleDriveClient.upload_file
  cases hinit : (GoogleDriveClient.init_drive_service env st).1.1 <;> simp [hinit, h]

/-- Witness for `c10_missing_file` on an initialized client. -/
theorem c10_missing_file_witness :
    c10AuthEnv.fileExists "backups/gone.rsc" = false ∧
    (GoogleDriveClient.init_drive_service c10AuthEnv ⟨false, false⟩).1.1 = true ∧
    (GoogleDriveClient.upload_file c10AuthEnv ⟨false, false⟩ [] "backups/gone.rsc").1.2 =
      UploadOut.err "File not found: backups/gone.rsc" :=
  ⟨rfl, rfl,
    (c10_missing_file c10AuthEnv ⟨false, false⟩ [] "backups/gone.rsc" rfl).2.2 rfl⟩

/-- Counterexample to C10 as stated: with no stored token, `upload_file` on
a missing path fails with the not-authorized message, not with
`File not found: <path>`. -/
theorem c10_message_cex :
    c10NoTokenEnv.fileExists "backups/gone.rsc" = false ∧
    (GoogleDriveClient.upload_file c10NoTokenEnv ⟨false, false⟩ [] "backups/gone.rsc").1.2 =
      UploadOut.err "Not authorized. Please authorize Google Drive access first." ∧
    (GoogleDriveClient.upload_file c10NoTokenEnv ⟨false, false⟩ [] "backups/gone.rsc").1.2 ≠
      UploadOut.err "File not found: backups/gone.rsc" := by
  refine ⟨rfl, rfl, ?_⟩
  decide

end AutoBackup
